import Mathlib

/-!
Verification of the OutfitAI app core (src/project_v1.py) against its
specification.  The source is a small Streamlit app whose verifiable core
is: the image classifier `GeminiStylist.analyze_image` (a 3-attempt retry
loop around a model call, code-fence stripping and JSON parsing), the
advice generator `GeminiStylist.generate_advice` (prompt rendering plus a
catch-all error handler), the model-ranking sort of the sidebar, and the
main UI pipeline that wires the two stages together.

The external model endpoint (`genai.GenerativeModel.generate_content`) is
modelled as an oracle: a function from the attempt number (for the
classifier) or from the prompt (for the advice stage) to an outcome which
either returns a text payload or raises an exception carrying a message
string, exactly the two behaviours the Python code distinguishes.

Python library functions used by the source are modelled faithfully on the
fragment exercised by the code:
  * `str.strip` / `str.replace`  (pyStripChars / pyReplace),
  * `"429" in msg`               (pyIn, substring test),
  * `json.loads`                 (jsonLoadsChars), restricted to the JSON
    subset the classifier contract uses: one object whose keys and values
    are strings; error messages follow CPython's
    "<kind>: line L column C (char P)" format,
  * `dict` construction and indexing (PyDict, dictInsert, dictGet;
    a missing key raises `KeyError: '<k>'`),
  * `sorted(xs, key=...)`        (rankedModels, a stable insertion sort).
-/

/-! ## Python string primitives -/

/-- Substring occurrence on character lists: `containsSub pat s` is the
Python test `pat in s`. -/
def containsSub (pat : List Char) : List Char → Bool
  | [] => pat.isEmpty
  | c :: rest => pat.isPrefixOf (c :: rest) || containsSub pat rest

/-- Python `needle in hay` on strings. -/
def pyIn (needle hay : String) : Bool := containsSub needle.data hay.data

/-- Characters Python `str.strip()` removes: the code points for which
CPython `str.isspace()` holds (0x09-0x0D, 0x1C-0x20, NEL, NBSP, Ogham
space, the 0x2000-0x200A range, LS, PS, NNBSP, MMSP and ideographic
space). -/
def isPySpace (c : Char) : Bool :=
  (9 ≤ c.val && c.val ≤ 13) || (28 ≤ c.val && c.val ≤ 32) ||
  c.val = 133 || c.val = 160 || c.val = 5760 ||
  (8192 ≤ c.val && c.val ≤ 8202) || c.val = 8232 || c.val = 8233 ||
  c.val = 8239 || c.val = 8287 || c.val = 12288

/-- Python `str.strip()` on a character list. -/
def pyStripChars (s : List Char) : List Char :=
  ((s.dropWhile isPySpace).reverse.dropWhile isPySpace).reverse

/-- One fuelled pass of Python `str.replace`: scan left to right, replacing
each non-overlapping occurrence of `pat` by `repl`.  Every step consumes at
least one character, so fuel equal to the input length suffices. -/
def pyReplaceFuel : Nat → List Char → List Char → List Char → List Char
  | 0, s, _, _ => s
  | _ + 1, [], _, _ => []
  | fuel + 1, c :: rest, pat, repl =>
    if pat ≠ [] ∧ pat.isPrefixOf (c :: rest) then
      repl ++ pyReplaceFuel fuel ((c :: rest).drop pat.length) pat repl
    else
      c :: pyReplaceFuel fuel rest pat repl

/-- Python `s.replace(pat, repl)` on character lists. -/
def pyReplace (s pat repl : List Char) : List Char :=
  pyReplaceFuel s.length s pat repl

/-- The backtick character (written as an escape so that no backtick
appears outside strings). -/
def btick : Char := '\x60'

/-! ## JSON subset model of `json.loads` -/

/-- A Python dict with string keys and values, in insertion order. -/
abbrev PyDict := List (String × String)

/-- Python dict assignment `d[k] = v`: replace in place or append. -/
def dictInsert : PyDict → String → String → PyDict
  | [], k, v => [(k, v)]
  | (k', v') :: rest, k, v =>
    if k' == k then (k', v) :: rest else (k', v') :: dictInsert rest k v

/-- Python dict read `d[k]` as an optional value. -/
def dictGet : PyDict → String → Option String
  | [], _ => none
  | (k', v) :: rest, k => if k' == k then some v else dictGet rest k

/-- A JSON decoding error: CPython's message kind and character offset. -/
structure PErr where
  kind : String
  pos : Nat
deriving DecidableEq, Repr

/-- JSON whitespace as accepted by CPython's scanner. -/
def isJWs (c : Char) : Bool := c = ' ' || c = '\t' || c = '\n' || c = '\x0d'

/-- Skip JSON whitespace, tracking the character offset. -/
def skipWs : List Char → Nat → List Char × Nat
  | [], pos => ([], pos)
  | c :: rest, pos =>
    if isJWs c then skipWs rest (pos + 1) else (c :: rest, pos)

/-- JSON two-character escapes (`\uXXXX` is outside the modelled subset). -/
def escChar : Char → Option Char
  | '"' => some '"'
  | '\\' => some '\\'
  | '/' => some '/'
  | 'b' => some '\x08'
  | 'f' => some '\x0c'
  | 'n' => some '\n'
  | 'r' => some '\x0d'
  | 't' => some '\t'
  | _ => none

/-- Parse the body of a JSON string after its opening quote.  `sp` is the
offset of the opening quote (used by the unterminated-string error), `pos`
the offset of the next character.  Returns the decoded characters, the
rest of the input and the offset after the closing quote. -/
def parseStringBody (sp : Nat) : List Char → Nat → Except PErr (List Char × List Char × Nat)
  | [], _ => .error ⟨"Unterminated string starting at", sp⟩
  | c :: rest, pos =>
    if c = '"' then .ok ([], rest, pos + 1)
    else if c = '\\' then
      match rest with
      | [] => .error ⟨"Unterminated string starting at", sp⟩
      | e :: rest2 =>
        match escChar e with
        | some ec =>
          match parseStringBody sp rest2 (pos + 2) with
          | .ok (cs, r, p) => .ok (ec :: cs, r, p)
          | .error err => .error err
        | none => .error ⟨"Invalid \\escape", pos + 1⟩
    else if c.val < 32 then .error ⟨"Invalid control character at", pos⟩
    else
      match parseStringBody sp rest (pos + 1) with
      | .ok (cs, r, p) => .ok (c :: cs, r, p)
      | .error err => .error err

/-- Parse the members of a JSON object after its opening brace, one
`"key": "value"` pair per unit of fuel, accumulating a Python dict. -/
def parseMembers : Nat → PyDict → List Char → Nat → Except PErr (PyDict × List Char × Nat)
  | 0, _, _, pos => .error ⟨"Expecting property name enclosed in double quotes", pos⟩
  | fuel + 1, acc, s, pos =>
    let sp1 := skipWs s pos
    match sp1.1 with
    | [] => .error ⟨"Expecting property name enclosed in double quotes", sp1.2⟩
    | c :: r1 =>
      if c = '"' then
        match parseStringBody sp1.2 r1 (sp1.2 + 1) with
        | .error err => .error err
        | .ok (kcs, s2, p2) =>
          let sp3 := skipWs s2 p2
          match sp3.1 with
          | [] => .error ⟨"Expecting ':' delimiter", sp3.2⟩
          | c2 :: r3 =>
            if c2 = ':' then
              let sp4 := skipWs r3 (sp3.2 + 1)
              match sp4.1 with
              | [] => .error ⟨"Expecting value", sp4.2⟩
              | c3 :: r4 =>
                if c3 = '"' then
                  match parseStringBody sp4.2 r4 (sp4.2 + 1) with
                  | .error err => .error err
                  | .ok (vcs, s5, p5) =>
                    let acc2 := dictInsert acc ⟨kcs⟩ ⟨vcs⟩
                    let sp6 := skipWs s5 p5
                    match sp6.1 with
                    | [] => .error ⟨"Expecting ',' delimiter", sp6.2⟩
                    | c4 :: r6 =>
                      if c4 = ',' then parseMembers fuel acc2 r6 (sp6.2 + 1)
                      else if c4 = '}' then .ok (acc2, r6, sp6.2 + 1)
                      else .error ⟨"Expecting ',' delimiter", sp6.2⟩
                else .error ⟨"Expecting value", sp4.2⟩
            else .error ⟨"Expecting ':' delimiter", sp3.2⟩
      else .error ⟨"Expecting property name enclosed in double quotes", sp1.2⟩

/-- After a parsed object, only whitespace may remain. -/
def finishParse (d : PyDict) (rest : List Char) (pos : Nat) : Except PErr PyDict :=
  let sp := skipWs rest pos
  match sp.1 with
  | [] => .ok d
  | _ => .error ⟨"Extra data", sp.2⟩

/-- `json.loads` on the subset the classifier contract uses: exactly one
object with string keys and string values.  CPython additionally accepts
documents outside this subset (arrays, numbers, booleans, null, nested
values), which this model rejects; the theorems below therefore state
parse success only through an explicit `= .ok d` hypothesis, and parse
failure only for inputs whose first non-blank character can start no JSON
document at all (`jsonValueStart` below) or that are blank — on those two
input classes this model and CPython agree exactly (both fail with
"Expecting value" at the same offset). -/
def jsonLoadsChars (s : List Char) : Except PErr PyDict :=
  let sp1 := skipWs s 0
  match sp1.1 with
  | [] => .error ⟨"Expecting value", sp1.2⟩
  | c :: r1 =>
    if c = '{' then
      let sp2 := skipWs r1 (sp1.2 + 1)
      match sp2.1 with
      | [] => .error ⟨"Expecting property name enclosed in double quotes", sp2.2⟩
      | c2 :: r2 =>
        if c2 = '}' then finishParse [] r2 (sp2.2 + 1)
        else
          match parseMembers (s.length + 1) [] sp2.1 sp2.2 with
          | .error err => .error err
          | .ok (d, rest, p) => finishParse d rest p
    else .error ⟨"Expecting value", sp1.2⟩

/-- The characters that can begin a JSON document accepted by CPython's
`json.loads`: an object, array or string opener, a number (minus sign or
digit), or the first letter of true, false, null, NaN or Infinity (the
latter two are CPython extensions, on by default).  A document whose first
non-blank character is none of these fails with "Expecting value" there,
in CPython and in this model alike. -/
def jsonValueStart (c : Char) : Bool :=
  c = '{' || c = '[' || c = '"' || c = '-' || c.isDigit ||
  c = 't' || c = 'f' || c = 'n' || c = 'N' || c = 'I'

/-- 1-based line number of a character offset (CPython `JSONDecodeError`). -/
def lineOf (doc : List Char) (pos : Nat) : Nat := 1 + (doc.take pos).count '\n'

/-- 1-based column number of a character offset (CPython `JSONDecodeError`). -/
def colOf (doc : List Char) (pos : Nat) : Nat :=
  match (((doc.take pos).enum).filter (fun p => p.2 = '\n')).getLast? with
  | none => pos + 1
  | some q => pos - q.1

/-- `str(e)` for a `JSONDecodeError` raised while decoding `doc`. -/
def fmtPErr (doc : List Char) (e : PErr) : String :=
  e.kind ++ ": line " ++ toString (lineOf doc e.pos) ++ " column " ++
    toString (colOf doc e.pos) ++ " (char " ++ toString e.pos ++ ")"

/-! ## The classifier stage: `GeminiStylist.analyze_image` -/

/-- Outcome of one call to the hosted model: a text payload (a successful
`generate_content` call followed by reading `response.text`) or a raised
exception carrying `str(e)`. -/
inductive ModelResp where
  | returns (text : String)
  | raises (msg : String)
deriving DecidableEq, Repr

/-- `clean_text`: strip, then remove every occurrence of "```json", then
every occurrence of "```" (line 89 of the source). -/
def cleanTextChars (t : String) : List Char :=
  pyReplace (pyReplace (pyStripChars t.data) "```json".data []) "```".data []

/-- One loop body up to `json.loads`: either the parsed dict, or the
message of the exception the body raised (a model error passes through,
a decoding failure raises a `JSONDecodeError`). -/
def attemptOutcome (resp : ModelResp) : Except String PyDict :=
  match resp with
  | .raises msg => .error msg
  | .returns text =>
    let clean := cleanTextChars text
    match jsonLoadsChars clean with
    | .ok d => .ok d
    | .error e => .error (fmtPErr clean e)

/-- `retries = 3` (line 84 of the source). -/
def retries : Nat := 3

/-- The quota-exhaustion `st.error` text (line 100). -/
def quotaError : String :=
  "Quota Exceeded (429): You are sending requests too fast or using a restricted model."

/-- The quota-exhaustion `st.info` text (line 101). -/
def quotaTip : String := "Tip: Switch to a 'flash' model in the sidebar."

/-- The generic-failure `st.error` text (line 104). -/
def visionError (e : String) : String := "AI Vision Error: " ++ e

/-- The generic-failure `st.info` text naming the model (lines 105-106). -/
def visionTip (modelName : String) : String :=
  "Tip: The model '" ++ modelName ++ "' failed. Try selecting a different model in the sidebar settings."

/-- Everything observable about one `analyze_image` run: how many times the
model was called, the sleep durations in seconds in order, the user-facing
messages in order, and the returned value (`none` is Python `None`). -/
structure AnalyzeOutcome where
  calls : Nat
  sleeps : List Nat
  messages : List String
  result : Option PyDict
deriving DecidableEq, Repr

/-- The retry loop of `analyze_image` (lines 85-107): `attempt` is the loop
index, the second argument the remaining iterations.  On an exception whose
message contains "429" the loop sleeps `2 ^ attempt` seconds and retries
while `attempt < retries - 1`, otherwise reports and returns `None`;
exceptions without "429" report and return `None` at once. -/
def analyzeGo (model : Nat → ModelResp) (modelName : String) : Nat → Nat → AnalyzeOutcome
  | _, 0 => ⟨0, [], [], none⟩
  | attempt, rem + 1 =>
    match attemptOutcome (model attempt) with
    | .ok d => ⟨1, [], [], some d⟩
    | .error msg =>
      if pyIn "429" msg then
        if attempt < retries - 1 then
          let rest := analyzeGo model modelName (attempt + 1) rem
          ⟨1 + rest.calls, 2 ^ attempt :: rest.sleeps, rest.messages, rest.result⟩
        else ⟨1, [], [quotaError, quotaTip], none⟩
      else ⟨1, [], [visionError msg, visionTip modelName], none⟩

/-- `GeminiStylist.analyze_image` with the model calls abstracted as an
oracle from the attempt number to the call's outcome. -/
def analyze_image (model : Nat → ModelResp) (modelName : String) : AnalyzeOutcome :=
  analyzeGo model modelName 0 retries

/-! ## The advice stage: `GeminiStylist.generate_advice` -/

/-- Python dict indexing `d[k]` inside an f-string: the value, or a raised
`KeyError` whose `str` names the key. -/
def lookupKey (d : PyDict) (k : String) : Except String String :=
  match dictGet d k with
  | some v => .ok v
  | none => .error ("KeyError: '" ++ k ++ "'")

/-- The advice prompt of lines 114-138, rendered from the nine interpolated
values in their order of appearance in the f-string. -/
def advicePrompt (g sk bt cat col sty dsc occ wea : String) : String :=
  "\n        You are an expert fashion stylist.\n\n        **USER PROFILE:**\n        - Gender: "
    ++ g ++
  "\n        - Skin Tone: " ++ sk ++ " (Consider color theory)\n        - Body Type: "
    ++ bt ++
  " (Consider silhouette)\n\n        **THE ITEM:**\n        - Category: " ++ cat ++
  "\n        - Color: " ++ col ++
  "\n        - Style: " ++ sty ++
  "\n        - Description: " ++ dsc ++
  "\n\n        **THE SCENARIO:**\n        - Occasion: " ++ occ ++
  "\n        - Weather: " ++ wea ++
  "\n\n        **YOUR TASK:**\n        1. Recommend 2 specific items to pair with this (e.g., \"Pair with white linen trousers...\").\n        2. Explain WHY this works (Color Theory & Silhouette).\n        3. Give a specific styling tip (e.g., \"Tuck it in\", \"Roll sleeves\").\n\n        Keep the tone encouraging, stylish, and concise.\n        "

/-- The apology returned when the advice model call raises (line 144). -/
def apologyText (e : String) : String :=
  "Sorry, I couldn't generate advice right now. Error: " ++ e

/-- `GeminiStylist.generate_advice` (lines 109-144).  Prompt construction
(the f-string's nine dict reads, in evaluation order) happens before the
try block, so a missing key raises a `KeyError` past the function; the
model call itself is wrapped in try/except and every exception there is
converted into the apology text. -/
def generate_advice (user_item context user_profile : PyDict)
    (model : String → ModelResp) : Except String String := do
  let g ← lookupKey user_profile "gender"
  let sk ← lookupKey user_profile "skin_tone"
  let bt ← lookupKey user_profile "body_type"
  let cat ← lookupKey user_item "category"
  let col ← lookupKey user_item "color"
  let sty ← lookupKey user_item "style"
  let dsc ← lookupKey user_item "description"
  let occ ← lookupKey context "occasion"
  let wea ← lookupKey context "weather"
  match model (advicePrompt g sk bt cat col sty dsc occ wea) with
  | .returns t => .ok t
  | .raises e => .ok (apologyText e)

/-! ## The main UI pipeline (lines 169-194) -/

/-- What the pipeline displays for one button press: the "Detected" line
(if reached), whether the advice stage was invoked, and the advice text
shown (if any). -/
structure PipelineOutcome where
  detected : Option String
  adviceCalled : Bool
  advice : Option String
deriving DecidableEq, Repr

/-- The per-press pipeline of lines 178-194 with the two model oracles
abstracted.  `item_data = analyze_image(...)`; then `if item_data:`
(Python truthiness: `None` and the empty dict are both falsy) guards the
detection line — whose f-string reads `color`, `style`, `category` in that
order, raising `KeyError` on a missing key — and the advice call.
An `.error` result is an exception propagating out of the pipeline. -/
def runPipeline (classModel : Nat → ModelResp) (adviceModel : String → ModelResp)
    (modelName g sk bt occ wea : String) : Except String PipelineOutcome :=
  let a := analyze_image classModel modelName
  match a.result with
  | none => .ok ⟨none, false, none⟩
  | some item =>
    if item.isEmpty then .ok ⟨none, false, none⟩
    else
      match lookupKey item "color" with
      | .error e => .error e
      | .ok colv =>
        match lookupKey item "style" with
        | .error e => .error e
        | .ok styv =>
          match lookupKey item "category" with
          | .error e => .error e
          | .ok catv =>
            let detectedLine := "✅ Detected: **" ++ colv ++ " " ++ styv ++ " " ++ catv ++ "**"
            let user_profile : PyDict := [("gender", g), ("skin_tone", sk), ("body_type", bt)]
            let context : PyDict := [("occasion", occ), ("weather", wea)]
            match generate_advice item context user_profile adviceModel with
            | .error e => .error e
            | .ok adv => .ok ⟨some detectedLine, true, some adv⟩

/-! ## Model ranking (lines 31-32) -/

/-- The sort key of line 32: `0 if 'flash' in x else (1 if 'pro' in x else 2)`. -/
def rankKey (x : String) : Nat :=
  if pyIn "flash" x then 0 else if pyIn "pro" x then 1 else 2

/-- Insert into a list sorted by `rankKey`, before the first element of
equal or larger key — the stable position. -/
def insertRanked (x : String) : List String → List String
  | [] => [x]
  | y :: ys => if rankKey x ≤ rankKey y then x :: y :: ys else y :: insertRanked x ys

/-- `sorted(all_models, key=...)` of line 32.  Python's `sorted` is a
stable sort by the key; any stable sort computes the same list, modelled
here as the stable insertion sort. -/
def rankedModels : List String → List String
  | [] => []
  | x :: xs => insertRanked x (rankedModels xs)

/-! ## Canonical classifier responses and value safety -/

/-- Characters needing no JSON escape and containing no backtick: such
values render literally and survive the fence-stripping untouched. -/
def jsonSafeChar (c : Char) : Bool :=
  decide (c ≠ '"') && decide (c ≠ '\\') && decide (¬ c.val < 32) && decide (c ≠ btick)

/-- A string of unescaped-renderable, backtick-free characters. -/
def jsonSafe (v : String) : Bool := v.data.all jsonSafeChar

/-- The characters of the canonical classifier response
`{"category": "CAT", "color": "COL", "style": "STY", "description": "DSC"}`,
written in the nested shape the member parser consumes. -/
def canonicalItemChars (cat col sty dsc : List Char) : List Char :=
  '{' :: '"' :: ("category".data ++ '"' :: ':' :: ' ' :: '"' :: (cat ++ '"' :: ',' ::
    ' ' :: '"' :: ("color".data ++ '"' :: ':' :: ' ' :: '"' :: (col ++ '"' :: ',' ::
    ' ' :: '"' :: ("style".data ++ '"' :: ':' :: ' ' :: '"' :: (sty ++ '"' :: ',' ::
    ' ' :: '"' :: ("description".data ++ '"' :: ':' :: ' ' :: '"' :: (dsc ++ '"' :: '}' :: []))))))))

/-- The canonical classifier response as a string. -/
def canonicalItemText (cat col sty dsc : String) : String :=
  ⟨canonicalItemChars cat.data col.data sty.data dsc.data⟩

/-- Wrapping a text in the `json`-labelled triple-backtick code fence. -/
def fenceWrap (t : String) : String := "```json\n" ++ t ++ "\n```"

/-- The first of the four required keys, in the order the pipeline reads
them, that is absent from `d`: the detection f-string of line 181 reads
`color`, `style`, `category` in that order, and the advice prompt of
lines 123-126 then reads `description` (its other item reads repeat
keys the detection line already read).  On a truthy dict this is the key
whose read raises the first `KeyError`. -/
def firstMissingRequiredKey (d : PyDict) : Option String :=
  if dictGet d "color" = none then some "color"
  else if dictGet d "style" = none then some "style"
  else if dictGet d "category" = none then some "category"
  else if dictGet d "description" = none then some "description"
  else none

deriving instance DecidableEq for Except

/-! ## Substring helper lemmas -/

theorem isPrefixOf_self_append (p b : List Char) : p.isPrefixOf (p ++ b) = true := by
  induction p with
  | nil => simp [List.isPrefixOf]
  | cons c cs ih => simp [List.isPrefixOf, ih]

theorem containsSub_append_left (pat a b : List Char) (h : containsSub pat b = true) :
    containsSub pat (a ++ b) = true := by
  induction a with
  | nil => simpa using h
  | cons c cs ih => simp [containsSub, ih]

theorem containsSub_self_append (pat b : List Char) : containsSub pat (pat ++ b) = true := by
  cases pat with
  | nil => cases b <;> simp [containsSub]
  | cons c cs => simp [containsSub, isPrefixOf_self_append]

theorem containsSub_self (pat : List Char) : containsSub pat pat = true := by
  have h := containsSub_self_append pat []
  simpa using h

/-! ## Theorems about the classifier retry policy -/

/-- C1: if every model call raises an error whose message contains "429",
`analyze_image` makes exactly 3 calls, sleeps 1 second then 2 seconds, and
returns `None` with the quota-specific message pair. -/
theorem analyze_image_429_exhausts_retries (model : Nat → ModelResp) (modelName : String)
    (m0 m1 m2 : String)
    (h0 : model 0 = .raises m0) (h1 : model 1 = .raises m1) (h2 : model 2 = .raises m2)
    (r0 : pyIn "429" m0 = true) (r1 : pyIn "429" m1 = true) (r2 : pyIn "429" m2 = true) :
    analyze_image model modelName = ⟨3, [1, 2], [quotaError, quotaTip], none⟩ := by
  simp [analyze_image, retries, analyzeGo, attemptOutcome, h0, h1, h2, r0, r1, r2]

theorem analyze_image_429_exhausts_retries_witness :
    (fun _ => ModelResp.raises "429 Resource has been exhausted") 0 =
        ModelResp.raises "429 Resource has been exhausted" ∧
    pyIn "429" "429 Resource has been exhausted" = true ∧
    analyze_image (fun _ => ModelResp.raises "429 Resource has been exhausted") "models/gemini-1.5-pro" =
      ⟨3, [1, 2], [quotaError, quotaTip], none⟩ :=
  ⟨rfl, by decide,
    analyze_image_429_exhausts_retries _ _ _ _ _ rfl rfl rfl (by decide) (by decide) (by decide)⟩

theorem analyze_image_non429_eq (model : Nat → ModelResp) (modelName m0 : String)
    (h0 : model 0 = .raises m0) (r0 : pyIn "429" m0 = false) :
    analyze_image model modelName = ⟨1, [], [visionError m0, visionTip modelName], none⟩ := by
  simp [analyze_image, retries, analyzeGo, attemptOutcome, h0, r0]

/-- C4: if the first model call raises an error whose message does not
contain "429", `analyze_image` makes exactly 1 call and returns `None`
with the model-specific message pair, whose tip names the failing model. -/
theorem analyze_image_non429_fails_fast (model : Nat → ModelResp) (modelName m0 : String)
    (h0 : model 0 = .raises m0) (r0 : pyIn "429" m0 = false) :
    analyze_image model modelName = ⟨1, [], [visionError m0, visionTip modelName], none⟩ ∧
    pyIn modelName (visionTip modelName) = true := by
  constructor
  · exact analyze_image_non429_eq model modelName m0 h0 r0
  · simp only [pyIn, visionTip, String.data_append, List.append_assoc]
    exact containsSub_append_left _ _ _ (containsSub_self_append _ _)

theorem analyze_image_non429_fails_fast_witness :
    (fun _ => ModelResp.raises "404 model not found") 0 = ModelResp.raises "404 model not found" ∧
    pyIn "429" "404 model not found" = false ∧
    (analyze_image (fun _ => ModelResp.raises "404 model not found") "models/gemini-pro-vision" =
      ⟨1, [], [visionError "404 model not found", visionTip "models/gemini-pro-vision"], none⟩ ∧
     pyIn "models/gemini-pro-vision" (visionTip "models/gemini-pro-vision") = true) :=
  ⟨rfl, by decide, analyze_image_non429_fails_fast _ _ _ rfl (by decide)⟩

theorem analyzeGo_retry_step (model : Nat → ModelResp) (modelName : String)
    (attempt rem : Nat) (m : String)
    (hm : attemptOutcome (model attempt) = .error m)
    (hr : pyIn "429" m = true) (ha : attempt < retries - 1) :
    analyzeGo model modelName attempt (rem + 1) =
      ⟨1 + (analyzeGo model modelName (attempt + 1) rem).calls,
       2 ^ attempt :: (analyzeGo model modelName (attempt + 1) rem).sleeps,
       (analyzeGo model modelName (attempt + 1) rem).messages,
       (analyzeGo model modelName (attempt + 1) rem).result⟩ := by
  simp only [analyzeGo, hm, hr, ha, if_true, ite_true]

theorem analyzeGo_calls_pos (model : Nat → ModelResp) (modelName : String)
    (attempt rem : Nat) (hrem : 0 < rem) :
    1 ≤ (analyzeGo model modelName attempt rem).calls := by
  cases rem with
  | zero => omega
  | succ r =>
    simp only [analyzeGo]
    split
    · simp
    · split
      · split
        · simp
        · simp
      · simp

/-- C10: rate-limit detection is a pure substring test on the exception
message: when the first call raises, a retry happens (a second call is
made, after a 1-second sleep) exactly when "429" occurs anywhere in the
message, regardless of what the error actually was. -/
theorem analyze_image_retry_iff_429_substring (model : Nat → ModelResp)
    (modelName m0 : String) (h0 : model 0 = .raises m0) :
    (2 ≤ (analyze_image model modelName).calls ↔ pyIn "429" m0 = true) ∧
    (pyIn "429" m0 = true → (analyze_image model modelName).sleeps.head? = some 1) := by
  constructor
  · constructor
    · intro hc
      cases hpy : pyIn "429" m0
      · exfalso
        have heq := analyze_image_non429_eq model modelName m0 h0 hpy
        rw [heq] at hc
        simp at hc
      · rfl
    · intro hr
      have h1 : 1 ≤ (analyzeGo model modelName 1 2).calls :=
        analyzeGo_calls_pos model modelName 1 2 (by omega)
      have hstep := analyzeGo_retry_step model modelName 0 2 m0
        (by simp [attemptOutcome, h0]) hr (by simp [retries])
      norm_num at hstep
      have hdef : analyze_image model modelName = analyzeGo model modelName 0 3 := rfl
      rw [hdef, hstep]
      simp only [AnalyzeOutcome.calls]
      omega
  · intro hr
    have hstep := analyzeGo_retry_step model modelName 0 2 m0
      (by simp [attemptOutcome, h0]) hr (by simp [retries])
    norm_num at hstep
    have hdef : analyze_image model modelName = analyzeGo model modelName 0 3 := rfl
    rw [hdef, hstep]
    simp

theorem analyze_image_retry_iff_429_substring_witness :
    (fun _ => ModelResp.raises "Bad request: see https://errs.example/04290") 0 =
        ModelResp.raises "Bad request: see https://errs.example/04290" ∧
    (2 ≤ (analyze_image (fun _ => ModelResp.raises "Bad request: see https://errs.example/04290") "m").calls ↔
      pyIn "429" "Bad request: see https://errs.example/04290" = true) :=
  ⟨rfl, (analyze_image_retry_iff_429_substring _ "m" _ rfl).1⟩

/-! ## Theorems about the pipeline -/

/-- C8: when the classifier stage returns `None`, the pipeline attempts no
advice call and produces no advice output (and no exception escapes). -/
theorem pipeline_short_circuits_on_classifier_failure
    (classModel : Nat → ModelResp) (adviceModel : String → ModelResp)
    (modelName g sk bt occ wea : String)
    (h : (analyze_image classModel modelName).result = none) :
    runPipeline classModel adviceModel modelName g sk bt occ wea = .ok ⟨none, false, none⟩ := by
  simp [runPipeline, h]

theorem pipeline_short_circuits_on_classifier_failure_witness :
    (analyze_image (fun _ => ModelResp.raises "transport closed") "m").result = none ∧
    runPipeline (fun _ => ModelResp.raises "transport closed") (fun _ => ModelResp.returns "advice")
        "m" "Female" "Medium" "Hourglass" "Date Night" "Mild/Spring" = .ok ⟨none, false, none⟩ :=
  ⟨by decide,
    pipeline_short_circuits_on_classifier_failure _ _ _ _ _ _ _ _ (by decide)⟩

/-! ## Theorems about the advice stage -/

/-- C5: on complete records (all nine keys present, as the pipeline always
supplies them), `generate_advice` returns normally for every model
behaviour, and any exception raised by the model call is converted into
the apology text embedding the error detail. -/
theorem generate_advice_never_raises
    (user_item context user_profile : PyDict)
    (g sk bt cat col sty dsc occ wea : String)
    (hg : dictGet user_profile "gender" = some g)
    (hsk : dictGet user_profile "skin_tone" = some sk)
    (hbt : dictGet user_profile "body_type" = some bt)
    (hcat : dictGet user_item "category" = some cat)
    (hcol : dictGet user_item "color" = some col)
    (hsty : dictGet user_item "style" = some sty)
    (hdsc : dictGet user_item "description" = some dsc)
    (hocc : dictGet context "occasion" = some occ)
    (hwea : dictGet context "weather" = some wea)
    (model : String → ModelResp) :
    (∃ s, generate_advice user_item context user_profile model = .ok s) ∧
    (∀ e, model (advicePrompt g sk bt cat col sty dsc occ wea) = .raises e →
      generate_advice user_item context user_profile model = .ok (apologyText e) ∧
      pyIn e (apologyText e) = true) := by
  have hun : generate_advice user_item context user_profile model =
      match model (advicePrompt g sk bt cat col sty dsc occ wea) with
      | .returns t => .ok t
      | .raises e => .ok (apologyText e) := by
    simp only [generate_advice, lookupKey, hg, hsk, hbt, hcat, hcol, hsty, hdsc, hocc, hwea]
    rfl
  constructor
  · cases hm : model (advicePrompt g sk bt cat col sty dsc occ wea) with
    | returns t => exact ⟨t, by rw [hun, hm]⟩
    | raises e => exact ⟨apologyText e, by rw [hun, hm]⟩
  · intro e he
    refine ⟨by rw [hun, he], ?_⟩
    simp only [pyIn, apologyText, String.data_append, List.append_assoc]
    exact containsSub_append_left _ _ _ (containsSub_self _)

theorem generate_advice_never_raises_witness :
    dictGet [("gender", "Female"), ("skin_tone", "Medium"), ("body_type", "Hourglass")] "gender" = some "Female" ∧
    ((∃ s, generate_advice
        [("category", "Top"), ("color", "Navy Blue"), ("style", "Casual"), ("description", "ribbed cotton, fitted")]
        [("occasion", "Date Night"), ("weather", "Mild/Spring")]
        [("gender", "Female"), ("skin_tone", "Medium"), ("body_type", "Hourglass")]
        (fun _ => ModelResp.raises "503 backend unavailable") = .ok s) ∧
     (∀ e, (fun _ => ModelResp.raises "503 backend unavailable")
          (advicePrompt "Female" "Medium" "Hourglass" "Top" "Navy Blue" "Casual" "ribbed cotton, fitted" "Date Night" "Mild/Spring") = ModelResp.raises e →
        generate_advice
          [("category", "Top"), ("color", "Navy Blue"), ("style", "Casual"), ("description", "ribbed cotton, fitted")]
          [("occasion", "Date Night"), ("weather", "Mild/Spring")]
          [("gender", "Female"), ("skin_tone", "Medium"), ("body_type", "Hourglass")]
          (fun _ => ModelResp.raises "503 backend unavailable") = .ok (apologyText e) ∧
        pyIn e (apologyText e) = true)) :=
  ⟨by decide,
    generate_advice_never_raises
      [("category", "Top"), ("color", "Navy Blue"), ("style", "Casual"), ("description", "ribbed cotton, fitted")]
      [("occasion", "Date Night"), ("weather", "Mild/Spring")]
      [("gender", "Female"), ("skin_tone", "Medium"), ("body_type", "Hourglass")]
      "Female" "Medium" "Hourglass" "Top" "Navy Blue" "Casual" "ribbed cotton, fitted" "Date Night" "Mild/Spring"
      (by decide) (by decide) (by decide) (by decide) (by decide) (by decide)
      (by decide) (by decide) (by decide) (fun _ => ModelResp.raises "503 backend unavailable")⟩

set_option maxRecDepth 8000 in
/-- C7: the advice prompt embeds all seven profile and item field values
verbatim as substrings, for every choice of field values. -/
theorem advicePrompt_embeds_all_fields (g sk bt cat col sty dsc occ wea : String) :
    pyIn g (advicePrompt g sk bt cat col sty dsc occ wea) = true ∧
    pyIn sk (advicePrompt g sk bt cat col sty dsc occ wea) = true ∧
    pyIn bt (advicePrompt g sk bt cat col sty dsc occ wea) = true ∧
    pyIn cat (advicePrompt g sk bt cat col sty dsc occ wea) = true ∧
    pyIn col (advicePrompt g sk bt cat col sty dsc occ wea) = true ∧
    pyIn sty (advicePrompt g sk bt cat col sty dsc occ wea) = true ∧
    pyIn dsc (advicePrompt g sk bt cat col sty dsc occ wea) = true := by
  refine ⟨?_, ?_, ?_, ?_, ?_, ?_, ?_⟩ <;>
    · simp only [pyIn, advicePrompt, String.data_append, List.append_assoc]
      repeat
        first
        | exact containsSub_self_append _ _
        | apply containsSub_append_left

/-! ## Theorems about the model ranking -/

theorem insertRanked_perm (x : String) (l : List String) :
    (insertRanked x l).Perm (x :: l) := by
  induction l with
  | nil => exact List.Perm.refl _
  | cons y ys ih =>
    simp only [insertRanked]
    split
    · exact List.Perm.refl _
    · exact (ih.cons y).trans (List.Perm.swap x y ys)

theorem rankedModels_perm (l : List String) : (rankedModels l).Perm l := by
  induction l with
  | nil => exact List.Perm.refl _
  | cons x xs ih => exact (insertRanked_perm x (rankedModels xs)).trans (ih.cons x)

theorem insertRanked_pairwise (x : String) (l : List String)
    (h : l.Pairwise (fun a b => rankKey a ≤ rankKey b)) :
    (insertRanked x l).Pairwise (fun a b => rankKey a ≤ rankKey b) := by
  induction l with
  | nil => simp [insertRanked]
  | cons y ys ih =>
    rcases List.pairwise_cons.mp h with ⟨hy, hys⟩
    simp only [insertRanked]
    split
    · rename_i hxy
      refine List.pairwise_cons.mpr ⟨?_, h⟩
      intro b hb
      rcases List.mem_cons.mp hb with hb | hb
      · exact hb ▸ hxy
      · exact le_trans hxy (hy b hb)
    · rename_i hxy
      push_neg at hxy
      refine List.pairwise_cons.mpr ⟨?_, ih hys⟩
      intro b hb
      have hbm : b ∈ x :: ys := (insertRanked_perm x ys).mem_iff.mp hb
      rcases List.mem_cons.mp hbm with hb2 | hb2
      · exact hb2 ▸ le_of_lt hxy
      · exact hy b hb2

theorem rankedModels_pairwise (l : List String) :
    (rankedModels l).Pairwise (fun a b => rankKey a ≤ rankKey b) := by
  induction l with
  | nil => simp [rankedModels]
  | cons x xs ih => exact insertRanked_pairwise x _ ih

theorem insertRanked_filter_eq (x : String) (l : List String) (k : Nat)
    (hk : rankKey x = k) :
    (insertRanked x l).filter (fun b => rankKey b == k) =
      x :: l.filter (fun b => rankKey b == k) := by
  induction l with
  | nil => simp [insertRanked, List.filter_cons, hk]
  | cons y ys ih =>
    simp only [insertRanked]
    split
    · simp [List.filter_cons, hk]
    · rename_i hxy
      push_neg at hxy
      have hyk : (rankKey y == k) = false := by
        subst hk
        simp only [beq_eq_false_iff_ne, ne_eq]
        omega
      simp [List.filter_cons, hyk, ih]

theorem insertRanked_filter_ne (x : String) (l : List String) (k : Nat)
    (hk : rankKey x ≠ k) :
    (insertRanked x l).filter (fun b => rankKey b == k) =
      l.filter (fun b => rankKey b == k) := by
  have hxk : (rankKey x == k) = false := by
    simp only [beq_eq_false_iff_ne, ne_eq]
    exact hk
  induction l with
  | nil => simp [insertRanked, List.filter_cons, hxk]
  | cons y ys ih =>
    simp only [insertRanked]
    split
    · simp [List.filter_cons, hxk]
    · simp [List.filter_cons, ih]

theorem rankedModels_stable (l : List String) (k : Nat) :
    (rankedModels l).filter (fun b => rankKey b == k) =
      l.filter (fun b => rankKey b == k) := by
  induction l with
  | nil => rfl
  | cons x xs ih =>
    by_cases hk : rankKey x = k
    · simp only [rankedModels]
      rw [insertRanked_filter_eq x _ k hk, ih, List.filter_cons]
      simp [hk]
    · simp only [rankedModels]
      rw [insertRanked_filter_ne x _ k hk, ih, List.filter_cons]
      simp [hk]

theorem rankedModels_of_pairwise (l : List String)
    (h : l.Pairwise (fun a b => rankKey a ≤ rankKey b)) : rankedModels l = l := by
  induction l with
  | nil => rfl
  | cons x xs ih =>
    rcases List.pairwise_cons.mp h with ⟨hx, hxs⟩
    simp only [rankedModels]
    rw [ih hxs]
    cases xs with
    | nil => rfl
    | cons y ys => simp [insertRanked, hx y (by simp)]

/-- C6: the ranking is a pure function over name strings: priority 0 for
names containing "flash", priority 1 for other names containing "pro",
priority 2 otherwise; the result is a permutation of the input, sorted by
that priority, stable (for each priority the input order of the names with
that priority is preserved), and the given three-model example ranks as
the spec states. -/
theorem rankedModels_priority_sort :
    (∀ x : String,
      (pyIn "flash" x = true → rankKey x = 0) ∧
      (pyIn "flash" x = false → pyIn "pro" x = true → rankKey x = 1) ∧
      (pyIn "flash" x = false → pyIn "pro" x = false → rankKey x = 2)) ∧
    (∀ l : List String, (rankedModels l).Perm l) ∧
    (∀ l : List String, (rankedModels l).Pairwise (fun a b => rankKey a ≤ rankKey b)) ∧
    (∀ (l : List String) (k : Nat),
      (rankedModels l).filter (fun b => rankKey b == k) =
        l.filter (fun b => rankKey b == k)) ∧
    rankedModels ["models/gemini-pro", "models/gemini-1.5-flash", "models/experimental-x"] =
      ["models/gemini-1.5-flash", "models/gemini-pro", "models/experimental-x"] := by
  refine ⟨?_, rankedModels_perm, rankedModels_pairwise, rankedModels_stable, by decide⟩
  intro x
  refine ⟨fun h1 => by simp [rankKey, h1], fun h1 h2 => by simp [rankKey, h1, h2],
    fun h1 h2 => by simp [rankKey, h1, h2]⟩

/-- C9: ranking is idempotent: ranking an already-ranked list returns it
unchanged, for every input list. -/
theorem rankedModels_idempotent (l : List String) :
    rankedModels (rankedModels l) = rankedModels l :=
  rankedModels_of_pairwise _ (rankedModels_pairwise l)

/-! ## Parser evaluation lemmas -/

theorem skipWs_not_ws (c : Char) (rest : List Char) (pos : Nat) (h : isJWs c = false) :
    skipWs (c :: rest) pos = (c :: rest, pos) := by
  simp [skipWs, h]

theorem skipWs_ws (c : Char) (rest : List Char) (pos : Nat) (h : isJWs c = true) :
    skipWs (c :: rest) pos = skipWs rest (pos + 1) := by
  simp [skipWs, h]

theorem parseStringBody_safe (v : List Char) (hv : v.all jsonSafeChar = true) :
    ∀ (sp : Nat) (rest : List Char) (pos : Nat),
      parseStringBody sp (v ++ '"' :: rest) pos = .ok (v, rest, pos + v.length + 1) := by
  induction v with
  | nil =>
    intro sp rest pos
    rw [parseStringBody.eq_def]
    simp
  | cons c v' ih =>
    intro sp rest pos
    rw [List.all_cons, Bool.and_eq_true] at hv
    obtain ⟨hc, hv'⟩ := hv
    simp only [jsonSafeChar, Bool.and_eq_true, decide_eq_true_eq] at hc
    obtain ⟨⟨⟨hq, hbs⟩, hctrl⟩, _⟩ := hc
    rw [List.cons_append, parseStringBody.eq_def]
    simp only [hq, hbs, hctrl, if_false, ite_false, if_neg]
    rw [ih hv' sp rest (pos + 1)]
    simp only [Except.ok.injEq, Prod.mk.injEq, List.length_cons, true_and]
    omega

theorem parseMembers_cons_ws (fuel : Nat) (acc : PyDict) (c : Char) (s : List Char)
    (pos : Nat) (h : isJWs c = true) :
    parseMembers (fuel + 1) acc (c :: s) pos = parseMembers (fuel + 1) acc s (pos + 1) := by
  simp only [parseMembers]
  rw [skipWs_ws c s pos h]

theorem parseMembers_step_comma (fuel : Nat) (acc : PyDict) (key v tail : List Char)
    (pos : Nat) (hkey : key.all jsonSafeChar = true) (hv : v.all jsonSafeChar = true) :
    parseMembers (fuel + 1) acc
        ('"' :: (key ++ '"' :: ':' :: ' ' :: '"' :: (v ++ '"' :: ',' :: tail))) pos =
      parseMembers fuel (dictInsert acc ⟨key⟩ ⟨v⟩) tail (pos + key.length + v.length + 7) := by
  simp only [parseMembers]
  rw [skipWs_not_ws _ _ _ (by decide)]
  simp only [ite_true, if_pos]
  rw [parseStringBody_safe key hkey]
  simp [skipWs, isJWs]
  rw [parseStringBody_safe v hv]
  simp [skipWs, isJWs]
  congr 1
  omega

theorem parseMembers_step_close (fuel : Nat) (acc : PyDict) (key v tail : List Char)
    (pos : Nat) (hkey : key.all jsonSafeChar = true) (hv : v.all jsonSafeChar = true) :
    parseMembers (fuel + 1) acc
        ('"' :: (key ++ '"' :: ':' :: ' ' :: '"' :: (v ++ '"' :: '}' :: tail))) pos =
      .ok (dictInsert acc ⟨key⟩ ⟨v⟩, tail, pos + key.length + v.length + 7) := by
  simp only [parseMembers]
  rw [skipWs_not_ws _ _ _ (by decide)]
  simp only [ite_true, if_pos]
  rw [parseStringBody_safe key hkey]
  simp [skipWs, isJWs]
  rw [parseStringBody_safe v hv]
  simp [skipWs, isJWs]
  omega

/-! ## Canonical classifier responses -/

/-- The canonical response is the evident concatenation. -/
theorem canonicalItemText_eq (cat col sty dsc : String) :
    canonicalItemText cat col sty dsc =
      "\x7b\"category\": \"" ++ cat ++ "\", \"color\": \"" ++ col ++ "\", \"style\": \"" ++
        sty ++ "\", \"description\": \"" ++ dsc ++ "\"\x7d" := by
  apply String.ext
  show canonicalItemChars cat.data col.data sty.data dsc.data = _
  simp [canonicalItemChars, String.data_append, List.append_assoc]

theorem canonicalItemChars_append (cat col sty dsc extra : List Char) :
    canonicalItemChars cat col sty dsc ++ extra =
      '{' :: '"' :: ("category".data ++ '"' :: ':' :: ' ' :: '"' :: (cat ++ '"' :: ',' ::
        ' ' :: '"' :: ("color".data ++ '"' :: ':' :: ' ' :: '"' :: (col ++ '"' :: ',' ::
        ' ' :: '"' :: ("style".data ++ '"' :: ':' :: ' ' :: '"' :: (sty ++ '"' :: ',' ::
        ' ' :: '"' :: ("description".data ++ '"' :: ':' :: ' ' :: '"' ::
          (dsc ++ '"' :: '}' :: extra)))))))) := by
  simp [canonicalItemChars, List.append_assoc]

/-- Parsing the canonical response with a leading and a trailing newline
(the residue of fence stripping) yields exactly the four-field dict. -/
theorem jsonLoadsChars_canonical_nl (cat col sty dsc : List Char)
    (hcat : cat.all jsonSafeChar = true) (hcol : col.all jsonSafeChar = true)
    (hsty : sty.all jsonSafeChar = true) (hdsc : dsc.all jsonSafeChar = true) :
    jsonLoadsChars ('\n' :: (canonicalItemChars cat col sty dsc ++ ['\n'])) =
      .ok [("category", ⟨cat⟩), ("color", ⟨col⟩), ("style", ⟨sty⟩), ("description", ⟨dsc⟩)] := by
  rw [canonicalItemChars_append]
  simp only [jsonLoadsChars]
  rw [skipWs_ws _ _ _ (by decide), skipWs_not_ws _ _ _ (by decide)]
  simp only [ite_true, if_pos]
  rw [skipWs_not_ws _ _ _ (by decide)]
  have hlen : ∀ X : List Char, ('\n' :: '{' :: '"' :: X).length + 1 =
      (('\n' :: '{' :: '"' :: X).length - 3) + 1 + 1 + 1 + 1 := by
    intro X
    simp [List.length_cons]
  simp only [reduceIte]
  rw [if_neg (by decide : ¬ ('"' : Char) = '}')]
  rw [hlen]
  rw [parseMembers_step_comma _ _ ['c', 'a', 't', 'e', 'g', 'o', 'r', 'y'] cat _ _ (by decide) hcat]
  rw [parseMembers_cons_ws _ _ _ _ _ (by decide)]
  rw [parseMembers_step_comma _ _ ['c', 'o', 'l', 'o', 'r'] col _ _ (by decide) hcol]
  rw [parseMembers_cons_ws _ _ _ _ _ (by decide)]
  rw [parseMembers_step_comma _ _ ['s', 't', 'y', 'l', 'e'] sty _ _ (by decide) hsty]
  rw [parseMembers_cons_ws _ _ _ _ _ (by decide)]
  rw [parseMembers_step_close _ _ ['d', 'e', 's', 'c', 'r', 'i', 'p', 't', 'i', 'o', 'n'] dsc _ _ (by decide) hdsc]
  have k1 : (⟨['c', 'a', 't', 'e', 'g', 'o', 'r', 'y']⟩ : String) = "category" := rfl
  have k2 : (⟨['c', 'o', 'l', 'o', 'r']⟩ : String) = "color" := rfl
  have k3 : (⟨['s', 't', 'y', 'l', 'e']⟩ : String) = "style" := rfl
  have k4 : (⟨['d', 'e', 's', 'c', 'r', 'i', 'p', 't', 'i', 'o', 'n']⟩ : String) = "description" := rfl
  have b1 : (("category" : String) == "color") = false := rfl
  have b2 : (("category" : String) == "style") = false := rfl
  have b3 : (("category" : String) == "description") = false := rfl
  have b4 : (("color" : String) == "style") = false := rfl
  have b5 : (("color" : String) == "description") = false := rfl
  have b6 : (("style" : String) == "description") = false := rfl
  simp only [k1, k2, k3, k4, dictInsert, b1, b2, b3, b4, b5, b6, if_false, cond_false]
  simp [finishParse, skipWs, isJWs]

/-! ## Fence stripping on backtick-free texts -/

theorem btick_not_mem_of_safe (v : List Char) (hv : v.all jsonSafeChar = true) :
    btick ∉ v := by
  intro hm
  have h := List.all_eq_true.mp hv btick hm
  simp [jsonSafeChar] at h

theorem containsSub_head_not_mem (p : Char) (pr s : List Char) (h : p ∉ s) :
    containsSub (p :: pr) s = false := by
  induction s with
  | nil => simp [containsSub]
  | cons c rest ih =>
    have h1 : p ≠ c := fun e => h (by simp [e])
    have h2 : p ∉ rest := fun m => h (by simp [m])
    simp [containsSub, List.isPrefixOf, ih h2, h1]

theorem containsSub_append_head_not_mem (p : Char) (pr a b : List Char) (h : p ∉ a) :
    containsSub (p :: pr) (a ++ b) = containsSub (p :: pr) b := by
  induction a with
  | nil => simp
  | cons c a' ih =>
    have h1 : p ≠ c := fun e => h (by simp [e])
    have h2 : p ∉ a' := fun m => h (by simp [m])
    simp [containsSub, List.isPrefixOf, ih h2, h1]

theorem pyReplaceFuel_no_occurrence (pat repl : List Char) :
    ∀ (fuel : Nat) (s : List Char), containsSub pat s = false →
      pyReplaceFuel fuel s pat repl = s := by
  intro fuel
  induction fuel with
  | zero => intro s h; rfl
  | succ f ih =>
    intro s h
    cases s with
    | nil => rfl
    | cons c rest =>
      rw [containsSub, Bool.or_eq_false_iff] at h
      obtain ⟨hpre, hrest⟩ := h
      simp only [pyReplaceFuel]
      rw [if_neg, ih rest hrest]
      rintro ⟨-, hp⟩
      rw [hpre] at hp
      cases hp

theorem pyReplaceFuel_append_not_mem (p : Char) (pr repl : List Char) :
    ∀ (a : List Char) (fuel : Nat) (b : List Char), p ∉ a →
      pyReplaceFuel fuel (a ++ b) (p :: pr) repl =
        a ++ pyReplaceFuel (fuel - a.length) b (p :: pr) repl := by
  intro a
  induction a with
  | nil => intro fuel b _; simp
  | cons c a' ih =>
    intro fuel b h
    have h1 : p ≠ c := fun e => h (by simp [e])
    have h2 : p ∉ a' := fun m => h (by simp [m])
    cases fuel with
    | zero => simp [pyReplaceFuel]
    | succ f =>
      simp only [List.cons_append, pyReplaceFuel]
      rw [if_neg]
      · simp only [List.append_eq]
        rw [ih f b h2]
        simp [Nat.succ_sub_succ]
      · rintro ⟨-, hp⟩
        simp [List.isPrefixOf] at hp
        exact h1 hp.1

theorem pyReplaceFuel_consume (pat repl b : List Char) (fuel : Nat) (hne : pat ≠ []) :
    pyReplaceFuel (fuel + 1) (pat ++ b) pat repl = repl ++ pyReplaceFuel fuel b pat repl := by
  cases pat with
  | nil => exact absurd rfl hne
  | cons p pr =>
    rw [List.cons_append]
    simp only [pyReplaceFuel]
    rw [if_pos]
    · rw [show p :: (pr ++ b) = (p :: pr) ++ b from rfl]
      rw [List.drop_left]
    · refine ⟨hne, ?_⟩
      rw [show p :: (pr ++ b) = (p :: pr) ++ b from rfl]
      exact isPrefixOf_self_append _ _

theorem pyStripChars_eq_self (c₁ : Char) (mid : List Char) (c₂ : Char)
    (h1 : isPySpace c₁ = false) (h2 : isPySpace c₂ = false) :
    pyStripChars (c₁ :: (mid ++ [c₂])) = c₁ :: (mid ++ [c₂]) := by
  unfold pyStripChars
  rw [List.dropWhile_cons]
  simp only [h1, ite_false, if_false, Bool.false_eq_true]
  rw [show c₁ :: (mid ++ [c₂]) = (c₁ :: mid) ++ [c₂] from rfl, List.reverse_append]
  simp only [List.reverse_cons, List.reverse_nil, List.nil_append, List.cons_append,
    List.dropWhile_cons]
  simp only [h2, ite_false, if_false, Bool.false_eq_true]
  simp

theorem mem_pyStripChars_subset (c : Char) (s : List Char) (h : c ∈ pyStripChars s) :
    c ∈ s := by
  unfold pyStripChars at h
  rw [List.mem_reverse] at h
  have h2 := (List.dropWhile_sublist _).subset h
  rw [List.mem_reverse] at h2
  exact (List.dropWhile_sublist _).subset h2

/-- On a backtick-free classifier response, the cleaning of line 89 is just
Python `strip`: both `replace` passes find no occurrence. -/
theorem cleanTextChars_no_btick (t : String) (h : btick ∉ t.data) :
    cleanTextChars t = pyStripChars t.data := by
  have hstrip : btick ∉ pyStripChars t.data := fun m => h (mem_pyStripChars_subset _ _ m)
  unfold cleanTextChars pyReplace
  rw [show "```json".data = btick :: "``json".data from rfl,
    pyReplaceFuel_no_occurrence _ _ _ _ (containsSub_head_not_mem _ _ _ hstrip),
    show "```".data = btick :: "``".data from rfl,
    pyReplaceFuel_no_occurrence _ _ _ _ (containsSub_head_not_mem _ _ _ hstrip)]

/-- Cleaning a fence-wrapped backtick-free text removes exactly the fence
markers, leaving the body with one newline on each side. -/
theorem cleanTextChars_fenceWrap (t : String) (h : btick ∉ t.data) :
    cleanTextChars (fenceWrap t) = '\n' :: (t.data ++ ['\n']) := by
  have hmemA : btick ∉ '\n' :: t.data := by
    intro hm
    rcases List.mem_cons.mp hm with he | hm2
    · exact absurd he (by decide)
    · exact h hm2
  have hshape : (fenceWrap t).data =
      btick :: (("``json\n".data ++ t.data ++ "\n``".data) ++ [btick]) := by
    simp [fenceWrap, btick, String.data_append, List.append_assoc]
  have hshape2 : btick :: (("``json\n".data ++ t.data ++ "\n``".data) ++ [btick]) =
      "```json".data ++ ('\n' :: (t.data ++ "\n```".data)) := by
    simp [btick, List.append_assoc]
  unfold cleanTextChars pyReplace
  rw [hshape, pyStripChars_eq_self _ _ _ (by decide) (by decide), hshape2]
  have step1 : pyReplaceFuel ("```json".data ++ ('\n' :: (t.data ++ "\n```".data))).length
      ("```json".data ++ ('\n' :: (t.data ++ "\n```".data))) "```json".data [] =
      ('\n' :: t.data) ++ "\n```".data := by
    rw [show "```json".data = btick :: "``json".data from rfl]
    have hlen : ((btick :: "``json".data) ++ ('\n' :: (t.data ++ "\n```".data))).length =
        (('\n' :: (t.data ++ "\n```".data)).length + 6) + 1 := by
      have h6 : ("``json".data).length = 6 := rfl
      simp only [List.length_cons, List.length_append, h6]
      omega
    rw [hlen, pyReplaceFuel_consume _ _ _ _ (by simp), List.nil_append]
    rw [show '\n' :: (t.data ++ "\n```".data) = ('\n' :: t.data) ++ "\n```".data from rfl]
    exact pyReplaceFuel_no_occurrence _ _ _ _
      (by rw [containsSub_append_head_not_mem _ _ _ _ hmemA]; decide)
  rw [step1]
  rw [show "```".data = btick :: "``".data from rfl]
  rw [pyReplaceFuel_append_not_mem btick "``".data [] ('\n' :: t.data) _ _ hmemA]
  have hl2 : (('\n' :: t.data) ++ "\n```".data).length - ('\n' :: t.data).length = 4 := by
    have h4 : ("\n```".data).length = 4 := rfl
    simp only [List.length_cons, List.length_append, h4]
    omega
  rw [hl2]
  rw [show pyReplaceFuel 4 "\n```".data (btick :: "``".data) [] = ['\n'] from by decide]
  rfl

theorem btick_not_mem_canonicalItemChars (cat col sty dsc : List Char)
    (h1 : cat.all jsonSafeChar = true) (h2 : col.all jsonSafeChar = true)
    (h3 : sty.all jsonSafeChar = true) (h4 : dsc.all jsonSafeChar = true) :
    btick ∉ canonicalItemChars cat col sty dsc := by
  intro hm
  have m1 := btick_not_mem_of_safe cat h1
  have m2 := btick_not_mem_of_safe col h2
  have m3 := btick_not_mem_of_safe sty h3
  have m4 := btick_not_mem_of_safe dsc h4
  rw [btick] at m1 m2 m3 m4
  simp [canonicalItemChars, btick, m1, m2, m3, m4] at hm

/-- C3 (amended): on a classifier response that is a backtick-free valid
JSON object carrying the four required string keys, `analyze_image`
returns on the first call exactly the parsed dict — so each field holds
exactly the string value of that key; the same holds for any such
backtick-free body wrapped in `json`-labelled triple-backtick code
fences: the fence markers are stripped (leaving one newline on each side
of the body) and the parsed values are returned unchanged.  In
particular, every canonically rendered response with escape-free,
backtick-free values — fenced or not — parses this way.  The
backtick-freedom proviso is what the counterexample forces: values
containing the fence sequences are corrupted by the stripping. -/
theorem analyze_image_valid_json_roundtrip :
    (∀ (model : Nat → ModelResp) (modelName t : String) (d : PyDict)
       (cat col sty dsc : String),
       btick ∉ t.data →
       model 0 = .returns t →
       jsonLoadsChars (pyStripChars t.data) = .ok d →
       dictGet d "category" = some cat → dictGet d "color" = some col →
       dictGet d "style" = some sty → dictGet d "description" = some dsc →
       analyze_image model modelName = ⟨1, [], [], some d⟩) ∧
    (∀ (model : Nat → ModelResp) (modelName t : String) (d : PyDict)
       (cat col sty dsc : String),
       btick ∉ t.data →
       model 0 = .returns (fenceWrap t) →
       jsonLoadsChars ('\n' :: (t.data ++ ['\n'])) = .ok d →
       dictGet d "category" = some cat → dictGet d "color" = some col →
       dictGet d "style" = some sty → dictGet d "description" = some dsc →
       analyze_image model modelName = ⟨1, [], [], some d⟩) ∧
    (∀ (model : Nat → ModelResp) (modelName cat col sty dsc : String),
       jsonSafe cat = true → jsonSafe col = true →
       jsonSafe sty = true → jsonSafe dsc = true →
       model 0 = .returns (fenceWrap (canonicalItemText cat col sty dsc)) →
       analyze_image model modelName =
         ⟨1, [], [], some [("category", cat), ("color", col), ("style", sty), ("description", dsc)]⟩) := by
  refine ⟨?_, ?_, ?_⟩
  · intro model modelName t d cat col sty dsc hbt hm hp hk1 hk2 hk3 hk4
    have hclean : cleanTextChars t = pyStripChars t.data := cleanTextChars_no_btick t hbt
    simp [analyze_image, retries, analyzeGo, attemptOutcome, hm, hclean, hp]
  · intro model modelName t d cat col sty dsc hbt hm hp hk1 hk2 hk3 hk4
    have hclean : cleanTextChars (fenceWrap t) = '\n' :: (t.data ++ ['\n']) :=
      cleanTextChars_fenceWrap t hbt
    simp [analyze_image, retries, analyzeGo, attemptOutcome, hm, hclean, hp]
  · intro model modelName cat col sty dsc hc1 hc2 hc3 hc4 hm
    have hnb : btick ∉ (canonicalItemText cat col sty dsc).data :=
      btick_not_mem_canonicalItemChars cat.data col.data sty.data dsc.data hc1 hc2 hc3 hc4
    have hclean := cleanTextChars_fenceWrap (canonicalItemText cat col sty dsc) hnb
    have hdata : (canonicalItemText cat col sty dsc).data =
        canonicalItemChars cat.data col.data sty.data dsc.data := rfl
    rw [hdata] at hclean
    have hparse := jsonLoadsChars_canonical_nl cat.data col.data sty.data dsc.data hc1 hc2 hc3 hc4
    have he1 : (⟨cat.data⟩ : String) = cat := rfl
    have he2 : (⟨col.data⟩ : String) = col := rfl
    have he3 : (⟨sty.data⟩ : String) = sty := rfl
    have he4 : (⟨dsc.data⟩ : String) = dsc := rfl
    rw [he1, he2, he3, he4] at hparse
    simp [analyze_image, retries, analyzeGo, attemptOutcome, hm, hclean, hparse]

theorem analyze_image_valid_json_roundtrip_witness :
    analyze_image (fun _ => ModelResp.returns
        "\x7b\"category\": \"Top\", \"color\": \"Navy Blue\", \"style\": \"Casual\", \"description\": \"ribbed cotton\"\x7d") "m" =
      ⟨1, [], [], some [("category", "Top"), ("color", "Navy Blue"), ("style", "Casual"), ("description", "ribbed cotton")]⟩ ∧
    analyze_image (fun _ => ModelResp.returns
        (fenceWrap "\x7b\"category\": \"Shoe\",\n  \"color\": \"White\", \"style\": \"Sporty\", \"description\": \"low-top\"\x7d")) "m" =
      ⟨1, [], [], some [("category", "Shoe"), ("color", "White"), ("style", "Sporty"), ("description", "low-top")]⟩ ∧
    analyze_image (fun _ => ModelResp.returns
        (fenceWrap (canonicalItemText "Top" "Navy Blue" "Casual" "ribbed cotton"))) "m" =
      ⟨1, [], [], some [("category", "Top"), ("color", "Navy Blue"), ("style", "Casual"), ("description", "ribbed cotton")]⟩ :=
  ⟨analyze_image_valid_json_roundtrip.1 _ "m" _ _ "Top" "Navy Blue" "Casual" "ribbed cotton"
      (by decide) rfl (by decide) (by decide) (by decide) (by decide) (by decide),
   analyze_image_valid_json_roundtrip.2.1 _ "m"
      "\x7b\"category\": \"Shoe\",\n  \"color\": \"White\", \"style\": \"Sporty\", \"description\": \"low-top\"\x7d"
      _ "Shoe" "White" "Sporty" "low-top"
      (by decide) rfl (by decide) (by decide) (by decide) (by decide) (by decide),
   analyze_image_valid_json_roundtrip.2.2 _ "m" "Top" "Navy Blue" "Casual" "ribbed cotton"
      (by decide) (by decide) (by decide) (by decide) rfl⟩

/-- C3 (counterexample): the response below is a valid JSON object with the
four required string keys, yet `analyze_image` does not return its field
values: the `replace`-based fence stripping deletes the "```json" sequence
inside the description value, so the returned description is "xy", not
"x```jsony". -/
theorem analyze_image_valid_json_roundtrip_counterexample :
    jsonLoadsChars ("\x7b\"category\": \"Top\", \"color\": \"Navy Blue\", \"style\": \"Casual\", \"description\": \"x```jsony\"\x7d").data =
      .ok [("category", "Top"), ("color", "Navy Blue"), ("style", "Casual"), ("description", "x```jsony")] ∧
    (analyze_image (fun _ => ModelResp.returns
        "\x7b\"category\": \"Top\", \"color\": \"Navy Blue\", \"style\": \"Casual\", \"description\": \"x```jsony\"\x7d") "m").result =
      some [("category", "Top"), ("color", "Navy Blue"), ("style", "Casual"), ("description", "xy")] ∧
    ("xy" : String) ≠ "x```jsony" :=
  ⟨by decide, by decide, by decide⟩

/-- C2 (amended): a ParseFailure does NOT propagate as an uncaught
exception out of `analyze_image`.  A response whose fence-stripped text
begins (after whitespace) with a character that can start no JSON
document, or is blank, makes `json.loads` raise "Expecting value" inside
the try block; the generic except handler catches it, and (message
without "429") `analyze_image` makes exactly one call and returns `None`
with the model-error messages.  A response that parses to a non-empty
dict lacking a required key is returned unvalidated, and the first
missing key in the pipeline's read order (`color`, `style`, `category`
on the detection line, then `description` in the advice prompt) raises
an uncaught `KeyError` that does propagate out of the pipeline; every
dict missing one of the four keys has such a first missing key, and it
is missing.  The empty object, being falsy, short-circuits like `None`:
no advice call, no output and no exception. -/
theorem parse_failure_behaviour :
    (∀ (model : Nat → ModelResp) (modelName t : String) (c : Char) (r : List Char) (p : Nat),
       model 0 = .returns t →
       skipWs (cleanTextChars t) 0 = (c :: r, p) →
       jsonValueStart c = false →
       pyIn "429" (fmtPErr (cleanTextChars t) ⟨"Expecting value", p⟩) = false →
       analyze_image model modelName =
         ⟨1, [], [visionError (fmtPErr (cleanTextChars t) ⟨"Expecting value", p⟩),
                  visionTip modelName], none⟩) ∧
    (∀ (model : Nat → ModelResp) (modelName t : String) (p : Nat),
       model 0 = .returns t →
       skipWs (cleanTextChars t) 0 = ([], p) →
       pyIn "429" (fmtPErr (cleanTextChars t) ⟨"Expecting value", p⟩) = false →
       analyze_image model modelName =
         ⟨1, [], [visionError (fmtPErr (cleanTextChars t) ⟨"Expecting value", p⟩),
                  visionTip modelName], none⟩) ∧
    (∀ (classModel : Nat → ModelResp) (adviceModel : String → ModelResp)
       (modelName g sk bt occ wea t : String) (d : PyDict) (k : String),
       classModel 0 = .returns t →
       jsonLoadsChars (cleanTextChars t) = .ok d →
       d ≠ [] →
       firstMissingRequiredKey d = some k →
       runPipeline classModel adviceModel modelName g sk bt occ wea =
         .error ("KeyError: '" ++ k ++ "'")) ∧
    (∀ d : PyDict,
       (dictGet d "category" = none ∨ dictGet d "color" = none ∨
         dictGet d "style" = none ∨ dictGet d "description" = none) →
       ∃ k, firstMissingRequiredKey d = some k ∧ dictGet d k = none) ∧
    (∀ (classModel : Nat → ModelResp) (adviceModel : String → ModelResp)
       (modelName g sk bt occ wea t : String),
       classModel 0 = .returns t →
       jsonLoadsChars (cleanTextChars t) = .ok [] →
       runPipeline classModel adviceModel modelName g sk bt occ wea =
         .ok ⟨none, false, none⟩) := by
  refine ⟨?_, ?_, ?_, ?_, ?_⟩
  · intro model modelName t c r p hm hskip hstart h429
    have hbrace : ¬ c = '{' := by
      intro e
      rw [e] at hstart
      simp [jsonValueStart] at hstart
    have hperr : jsonLoadsChars (cleanTextChars t) = .error ⟨"Expecting value", p⟩ := by
      simp only [jsonLoadsChars, hskip]
      simp [hbrace]
    simp [analyze_image, retries, analyzeGo, attemptOutcome, hm, hperr, h429]
  · intro model modelName t p hm hskip h429
    have hperr : jsonLoadsChars (cleanTextChars t) = .error ⟨"Expecting value", p⟩ := by
      simp [jsonLoadsChars, hskip]
    simp [analyze_image, retries, analyzeGo, attemptOutcome, hm, hperr, h429]
  · intro classModel adviceModel modelName g sk bt occ wea t d k hm hp hne hfirst
    have ha : analyze_image classModel modelName = ⟨1, [], [], some d⟩ := by
      simp [analyze_image, retries, analyzeGo, attemptOutcome, hm, hp]
    have hie : d.isEmpty = false := by
      cases d with
      | nil => exact absurd rfl hne
      | cons q rest => rfl
    unfold firstMissingRequiredKey at hfirst
    by_cases hcol : dictGet d "color" = none
    · rw [if_pos hcol] at hfirst
      obtain rfl : "color" = k := Option.some.inj hfirst
      simp [runPipeline, ha, hie, lookupKey, hcol]
    · rw [if_neg hcol] at hfirst
      obtain ⟨cv, hcv⟩ := Option.ne_none_iff_exists'.mp hcol
      by_cases hsty : dictGet d "style" = none
      · rw [if_pos hsty] at hfirst
        obtain rfl : "style" = k := Option.some.inj hfirst
        simp [runPipeline, ha, hie, lookupKey, hcv, hsty]
      · rw [if_neg hsty] at hfirst
        obtain ⟨sv, hsv⟩ := Option.ne_none_iff_exists'.mp hsty
        by_cases hcat : dictGet d "category" = none
        · rw [if_pos hcat] at hfirst
          obtain rfl : "category" = k := Option.some.inj hfirst
          simp [runPipeline, ha, hie, lookupKey, hcv, hsv, hcat]
        · rw [if_neg hcat] at hfirst
          obtain ⟨catv, hcatv⟩ := Option.ne_none_iff_exists'.mp hcat
          by_cases hdsc : dictGet d "description" = none
          · rw [if_pos hdsc] at hfirst
            obtain rfl : "description" = k := Option.some.inj hfirst
            have hga : ∀ am : String → ModelResp,
                generate_advice d [("occasion", occ), ("weather", wea)]
                  [("gender", g), ("skin_tone", sk), ("body_type", bt)] am =
                .error ("KeyError: '" ++ "description" ++ "'") := by
              intro am
              simp only [generate_advice, lookupKey, dictGet, hcatv, hcv, hsv, hdsc]
              rfl
            simp [runPipeline, ha, hie, lookupKey, hcv, hsv, hcatv, hga]
          · rw [if_neg hdsc] at hfirst
            exact absurd hfirst (by simp)
  · intro d hmiss
    by_cases hcol : dictGet d "color" = none
    · exact ⟨"color", by simp [firstMissingRequiredKey, hcol], hcol⟩
    · by_cases hsty : dictGet d "style" = none
      · exact ⟨"style", by simp [firstMissingRequiredKey, hcol, hsty], hsty⟩
      · by_cases hcat : dictGet d "category" = none
        · exact ⟨"category", by simp [firstMissingRequiredKey, hcol, hsty, hcat], hcat⟩
        · by_cases hdsc : dictGet d "description" = none
          · exact ⟨"description",
              by simp [firstMissingRequiredKey, hcol, hsty, hcat, hdsc], hdsc⟩
          · rcases hmiss with h | h | h | h
            · exact absurd h hcat
            · exact absurd h hcol
            · exact absurd h hsty
            · exact absurd h hdsc
  · intro classModel adviceModel modelName g sk bt occ wea t hm hp
    have ha : analyze_image classModel modelName = ⟨1, [], [], some []⟩ := by
      simp [analyze_image, retries, analyzeGo, attemptOutcome, hm, hp]
    simp [runPipeline, ha]

theorem parse_failure_behaviour_witness :
    analyze_image (fun _ => ModelResp.returns "hello") "m" =
      ⟨1, [],
       [visionError (fmtPErr (cleanTextChars "hello") ⟨"Expecting value", 0⟩), visionTip "m"],
       none⟩ ∧
    runPipeline (fun _ => ModelResp.returns "\x7b\"category\": \"Top\"\x7d")
        (fun _ => ModelResp.returns "a") "m" "Female" "Medium" "Hourglass" "Date Night" "Mild/Spring" =
      .error ("KeyError: '" ++ "color" ++ "'") ∧
    runPipeline (fun _ => ModelResp.returns "\x7b\x7d")
        (fun _ => ModelResp.returns "a") "m" "Female" "Medium" "Hourglass" "Date Night" "Mild/Spring" =
      .ok ⟨none, false, none⟩ :=
  ⟨parse_failure_behaviour.1 _ "m" "hello" 'h' "ello".data 0 rfl (by decide) (by decide) (by decide),
   parse_failure_behaviour.2.2.1 _ _ "m" "Female" "Medium" "Hourglass" "Date Night" "Mild/Spring"
     "\x7b\"category\": \"Top\"\x7d" [("category", "Top")] "color" rfl (by decide) (by decide) (by decide),
   parse_failure_behaviour.2.2.2.2 _ _ "m" "Female" "Medium" "Hourglass" "Date Night" "Mild/Spring"
     "\x7b\x7d" rfl (by decide)⟩

/-- C2 (counterexample): on the response "hello" — not valid JSON — the
parse failure is caught inside `analyze_image` (one call, a null result,
the model-error messages naming the decode error), and the pipeline run
completes normally with no advice rather than propagating an exception. -/
theorem parse_failure_behaviour_counterexample :
    analyze_image (fun _ => ModelResp.returns "hello") "m" =
      ⟨1, [],
       ["AI Vision Error: Expecting value: line 1 column 1 (char 0)",
        "Tip: The model 'm' failed. Try selecting a different model in the sidebar settings."],
       none⟩ ∧
    runPipeline (fun _ => ModelResp.returns "hello") (fun _ => ModelResp.returns "a")
        "m" "Female" "Medium" "Hourglass" "Date Night" "Mild/Spring" = .ok ⟨none, false, none⟩ :=
  ⟨by decide, by decide⟩
